import Mathlib

/-!
Verification of the HowLongToBeat crawler (src/main.py, src/filter.py).

Shallow embedding conventions:
* Python strings are Lean `String`s, usually processed as `List Char`.
  Character classes (`\s`, `\d`, `\w`, `[A-Za-z]`, `str.lower`) are modelled
  on their ASCII fragment (plus U+00A0 for whitespace), which covers every
  text the extractors consume.
* Python floats are modelled as `ℚ`; `round(x, 2)` is round-half-to-even at
  two decimals.  The `int(v) if v.is_integer() else v` collapse is
  value-preserving in `ℚ` and therefore disappears.
* The BeautifulSoup document handle is abstracted into the `Soup` structure
  holding exactly the query results the extractors read (the HTML tree
  parser is an external collaborator per the specification).
* Fallible code returns `Option`; a propagating Python exception is an
  `Except.error`.
-/

/-- ASCII decimal digit, `\d` of the source regexes. -/
def isDigitC (c : Char) : Bool := '0' ≤ c && c ≤ '9'

/-- ASCII letter, `[A-Za-z]` of the source regexes. -/
def isLetterC (c : Char) : Bool := ('a' ≤ c && c ≤ 'z') || ('A' ≤ c && c ≤ 'Z')

/-- ASCII uppercase letter, `[A-Z]` without `re.I`. -/
def isUpperC (c : Char) : Bool := 'A' ≤ c && c ≤ 'Z'

/-- Whitespace recognised by `\s` and `str.strip` (ASCII fragment plus NBSP). -/
def isWsC (c : Char) : Bool :=
  c = ' ' || c = '\t' || c = '\n' || c = '\x0d' || c = '\x0b' || c = '\x0c' || c = '\xa0'

/-- Word character, `\w` of the source regexes (ASCII fragment). -/
def isWordC (c : Char) : Bool := isLetterC c || isDigitC c || c = '_'

/-- The three dash characters the duration grammar splits on. -/
def isDashC (c : Char) : Bool := c = '-' || c = '–' || c = '—'

/-- The uppercase-to-lowercase table of `str.lower` (ASCII fragment). -/
def lowerTable : List (Char × Char) :=
  [('A', 'a'), ('B', 'b'), ('C', 'c'), ('D', 'd'), ('E', 'e'), ('F', 'f'),
   ('G', 'g'), ('H', 'h'), ('I', 'i'), ('J', 'j'), ('K', 'k'), ('L', 'l'),
   ('M', 'm'), ('N', 'n'), ('O', 'o'), ('P', 'p'), ('Q', 'q'), ('R', 'r'),
   ('S', 's'), ('T', 't'), ('U', 'u'), ('V', 'v'), ('W', 'w'), ('X', 'x'),
   ('Y', 'y'), ('Z', 'z')]

/-- `str.lower` on one character (ASCII fragment). -/
def pyLowerC (c : Char) : Char :=
  ((lowerTable.find? (fun p => p.1 = c)).map Prod.snd).getD c

/-- `str.lower` on a character list. -/
def pyLower (cs : List Char) : List Char := cs.map pyLowerC

/-- `str.strip()` on a character list. -/
def pyStrip (cs : List Char) : List Char :=
  ((cs.dropWhile isWsC).reverse.dropWhile isWsC).reverse

/-- `text.replace("\xa0", " ")`. -/
def replaceNbsp (cs : List Char) : List Char :=
  cs.map (fun c => if c = '\xa0' then ' ' else c)

/-- Numeric value of a digit list (the regex groups are always digit runs). -/
def natValDigits (ds : List Char) : Nat :=
  ds.foldl (fun a c => a * 10 + (c.toNat - '0'.toNat)) 0

/-!
The library's `Rat.add`, `Rat.mul`, `Rat.inv` and `Rat.sub` are
`@[irreducible]`, which stops `decide` from evaluating concrete duration
values.  The embedding therefore computes with the following `mkRat`-based
operations; each is proven equal to the corresponding field operation in
the theorem section (`qadd_eq`, `qdivN_eq`, `qmulN_eq`, `qofNat_eq`,
`qsubInt_eq`, `qhalf_eq`), so every arithmetic step below is ordinary
exact rational arithmetic.
-/

/-- Addition on `ℚ`: equal to `a + b`. -/
def qadd (a b : ℚ) : ℚ := mkRat (a.num * b.den + b.num * a.den) (a.den * b.den)

/-- Division by a (non-zero) natural: equal to `a / n`. -/
def qdivN (a : ℚ) (n : Nat) : ℚ := mkRat a.num (a.den * n)

/-- Multiplication by a natural: equal to `a * n`. -/
def qmulN (a : ℚ) (n : Nat) : ℚ := mkRat (a.num * n) a.den

/-- Embedding of a natural: equal to `(n : ℚ)`. -/
def qofNat (n : Nat) : ℚ := mkRat n 1

/-- Subtraction of an integer: equal to `a - z`. -/
def qsubInt (a : ℚ) (z : ℤ) : ℚ := mkRat (a.num - z * a.den) a.den

/-- The constant `0.5`. -/
def qhalf : ℚ := mkRat 1 2

/-- Round-half-to-even to an integer, the rounding mode of Python `round`. -/
def rhe (q : ℚ) : ℤ :=
  let f := Rat.floor q
  let r := qsubInt q f
  if r < qhalf then f
  else if qhalf < r then f + 1
  else if f % 2 = 0 then f else f + 1

/-- Python `round(x, 2)` on the exact rational value. -/
def round2 (q : ℚ) : ℚ := mkRat (rhe (qmulN q 100)) 100

/-- `\b` after a word character: next char is absent or a non-word char. -/
def boundaryOk : List Char → Bool
  | [] => true
  | c :: _ => !(isWordC c)

/-- Tail `(?:our)?s?\b` of the hour patterns (input already lowercased). -/
def afterHSuffix (cs : List Char) : Bool :=
  let tailOk := fun (r : List Char) =>
    boundaryOk r || (match r with | 's' :: r2 => boundaryOk r2 | _ => false)
  (match cs with
   | 'o' :: 'u' :: 'r' :: r => tailOk r
   | _ => false) || tailOk cs

/-- `re.match(r"^(\d+)\s*½\s*h(?:our)?s?\b", raw)` — value `n + 0.5`. -/
def m1half (raw : List Char) : Option ℚ :=
  let (ds, r1) := raw.span isDigitC
  if ds = [] then none else
  match r1.dropWhile isWsC with
  | '½' :: r2 =>
    match r2.dropWhile isWsC with
    | 'h' :: r3 => if afterHSuffix r3 then some (qadd (qofNat (natValDigits ds)) qhalf) else none
    | _ => none
  | _ => none

/-- `re.match(r"^½\s*h(?:our)?s?\b", raw)` — value `0.5`. -/
def m2half (raw : List Char) : Option ℚ :=
  match raw with
  | '½' :: r =>
    match r.dropWhile isWsC with
    | 'h' :: r2 => if afterHSuffix r2 then some qhalf else none
    | _ => none
  | _ => none

/-- `re.match(r"^(\d+)\s*h\s*(\d+)\s*m\b", raw)` — value `round(h + m/60, 2)`. -/
def m3hm (raw : List Char) : Option ℚ :=
  let (ds, r1) := raw.span isDigitC
  if ds = [] then none else
  match r1.dropWhile isWsC with
  | 'h' :: r2 =>
    let (ms, r3) := (r2.dropWhile isWsC).span isDigitC
    if ms = [] then none else
    match r3.dropWhile isWsC with
    | 'm' :: r4 =>
      if boundaryOk r4 then
        some (round2 (qadd (qofNat (natValDigits ds)) (qdivN (qofNat (natValDigits ms)) 60)))
      else none
    | _ => none
  | _ => none

/-- `re.match(r"^(\d+)\s*h\b", raw)` — value `n`. -/
def m4h (raw : List Char) : Option ℚ :=
  let (ds, r1) := raw.span isDigitC
  if ds = [] then none else
  match r1.dropWhile isWsC with
  | 'h' :: r2 => if boundaryOk r2 then some (qofNat (natValDigits ds)) else none
  | _ => none

/-- `re.match(r"^(\d+)\s*m\b", raw)` — value `round(n/60, 2)`. -/
def m5m (raw : List Char) : Option ℚ :=
  let (ds, r1) := raw.span isDigitC
  if ds = [] then none else
  match r1.dropWhile isWsC with
  | 'm' :: r2 => if boundaryOk r2 then some (round2 (qdivN (qofNat (natValDigits ds)) 60)) else none
  | _ => none

/-- The alternation `(mins?|minutes?)\b` (input already lowercased). -/
def minsAlt (cs : List Char) : Bool :=
  (match cs with
   | 'm' :: 'i' :: 'n' :: 's' :: r => boundaryOk r
   | _ => false) ||
  (match cs with
   | 'm' :: 'i' :: 'n' :: 'u' :: 't' :: 'e' :: 's' :: r => boundaryOk r
   | _ => false) ||
  (match cs with
   | 'm' :: 'i' :: 'n' :: 'u' :: 't' :: 'e' :: r => boundaryOk r
   | _ => false) ||
  (match cs with
   | 'm' :: 'i' :: 'n' :: r => boundaryOk r
   | _ => false)

/-- `re.match(r"^(\d+)\s*(mins?|minutes?)\b", raw)` — value `round(n/60, 2)`. -/
def m6mins (raw : List Char) : Option ℚ :=
  let (ds, r1) := raw.span isDigitC
  if ds = [] then none else
  if minsAlt (r1.dropWhile isWsC) then some (round2 (qdivN (qofNat (natValDigits ds)) 60)) else none

/-- `re.match(r"^(\d+)\s*h(?:our)?s?\b", raw)` — value `n`. -/
def m7hours (raw : List Char) : Option ℚ :=
  let (ds, r1) := raw.span isDigitC
  if ds = [] then none else
  match r1.dropWhile isWsC with
  | 'h' :: r2 => if afterHSuffix r2 then some (qofNat (natValDigits ds)) else none
  | _ => none

/-- The non-range regex cascade of `parse_hours`, in source order. -/
def matchRegexes (raw : List Char) : Option ℚ :=
  (m1half raw).orElse fun _ =>
  (m2half raw).orElse fun _ =>
  (m3hm raw).orElse fun _ =>
  (m4h raw).orElse fun _ =>
  (m5m raw).orElse fun _ =>
  (m6mins raw).orElse fun _ =>
  m7hours raw

/-- Does the list contain one of the three dash characters. -/
def containsDash (cs : List Char) : Bool := cs.any isDashC

/-- Cut the list at every dash character (each dash is consumed). -/
def splitAtDash : List Char → List (List Char)
  | [] => [[]]
  | c :: rest =>
    if isDashC c then [] :: splitAtDash rest
    else
      match splitAtDash rest with
      | p :: ps => (c :: p) :: ps
      | [] => [[c]]

/-- Remove trailing whitespace (absorbed by a following separator's `\s*`). -/
def trimTrail (cs : List Char) : List Char := (cs.reverse.dropWhile isWsC).reverse

/-- Remove leading whitespace (absorbed by a preceding separator's `\s*`). -/
def trimLead (cs : List Char) : List Char := cs.dropWhile isWsC

/-- Middle parts lose whitespace on both sides. -/
def adjustMids : List (List Char) → List (List Char)
  | [] => []
  | [p] => [trimLead p]
  | p :: ps => trimLead (trimTrail p) :: adjustMids ps

/-- `re.split(r"\s*[-–—]\s*", raw)`.  Every dash is consumed by exactly one
separator match together with the whitespace adjacent to it, so the split is
the per-dash cut with separator-adjacent whitespace removed: the first part
loses trailing whitespace, the last loses leading whitespace, middles both. -/
def splitDashes (cs : List Char) : List (List Char) :=
  match splitAtDash cs with
  | [] => []
  | [p] => [p]
  | p :: ps => trimTrail p :: adjustMids ps

/-- Normalisation prefix of `parse_hours`:
`text.replace("\xa0", " ").strip().lower()`. -/
def processRaw (cs : List Char) : List Char := pyLower (pyStrip (replaceNbsp cs))

/-- The dash-range branch of `parse_hours`: when the normalised text holds a
dash and splits into exactly two parts that both parse, their average is
rounded to two decimals (the `int` collapse preserves the value in `ℚ`). -/
def rangeValue (recur : List Char → Option ℚ) (raw : List Char) : Option ℚ :=
  if containsDash raw then
    match splitDashes raw with
    | [p1, p2] =>
      match recur p1, recur p2 with
      | some a, some b => some (round2 (qdivN (qadd a b) 2))
      | _, _ => none
    | _ => none
  else none

/-- One unfolding of the body of `parse_hours`, with the recursive call
abstracted (the source recursion appears only in the dash-range branch). -/
def parseHoursBody (recur : List Char → Option ℚ) (cs : List Char) : Option ℚ :=
  if cs = [] then none
  else if processRaw cs = ['-', '-'] || processRaw cs = ['-'] then none
  else (rangeValue recur (processRaw cs)).orElse fun _ => matchRegexes (processRaw cs)

/-- Fuel-indexed `parse_hours`; the range branch recurses at one less fuel. -/
def parseHoursAux : Nat → List Char → Option ℚ
  | 0, _ => none
  | n + 1, cs => parseHoursBody (parseHoursAux n) cs

/-- `parse_hours` of src/main.py.  The fuel `length + 2` always suffices
(the termination claim proves fuel 2 already does). -/
def parse_hours (text : String) : Option ℚ :=
  parseHoursAux (text.data.length + 2) text.data

/-- `to_int` of src/main.py: `re.search(r"\d[\d,]*", text)`, commas stripped,
converted with `int` (which cannot fail on a digit string). -/
def to_int (text : String) : Option Nat :=
  match text.data.dropWhile (fun c => !(isDigitC c)) with
  | [] => none
  | c :: rest =>
    let run := rest.takeWhile (fun c => isDigitC c || c = ',')
    some (natValDigits (c :: run.filter isDigitC))

/-- The seven canonical playstyle keys (`TIME_KEYS` of src/main.py). -/
inductive TimeKey
  | main_story | main_plus_sides | completionist | all_styles
  | single_player | co_op | versus
deriving DecidableEq, Repr

/-- `norm_time_label` of src/main.py. -/
def norm_time_label (label : String) : Option TimeKey :=
  let lbl := String.mk (pyLower (pyStrip label.data))
  if lbl = "main story" then some .main_story
  else if lbl = "main + sides" then some .main_plus_sides
  else if lbl = "main + extras" then some .main_plus_sides
  else if lbl = "completionist" then some .completionist
  else if lbl = "all styles" then some .all_styles
  else if lbl = "all playstyles" then some .all_styles
  else if lbl = "single-player" then some .single_player
  else if lbl = "single player" then some .single_player
  else if lbl = "singleplayer" then some .single_player
  else if lbl = "co-op" then some .co_op
  else if lbl = "coop" then some .co_op
  else if lbl = "competitive" then some .versus
  else if lbl = "vs." then some .versus
  else if lbl = "versus" then some .versus
  else none

/-- The time dictionary over the fixed keys `TIME_KEYS ++ POLLED_KEYS`. -/
structure Times where
  main_story : Option ℚ := none
  main_plus_sides : Option ℚ := none
  completionist : Option ℚ := none
  all_styles : Option ℚ := none
  single_player : Option ℚ := none
  co_op : Option ℚ := none
  versus : Option ℚ := none
  main_story_polled : Option Nat := none
  main_plus_sides_polled : Option Nat := none
  completionist_polled : Option Nat := none
  all_styles_polled : Option Nat := none
  single_player_polled : Option Nat := none
  co_op_polled : Option Nat := none
  versus_polled : Option Nat := none
deriving DecidableEq, Repr

/-- The all-`None` dictionary `{k: None for k in TIME_KEYS + POLLED_KEYS}`. -/
def emptyTimes : Times := {}

/-- `result[key] = v` for an average key (unconditional dictionary write). -/
def setAvgVal (t : Times) (k : TimeKey) (v : Option ℚ) : Times :=
  match k with
  | .main_story => { t with main_story := v }
  | .main_plus_sides => { t with main_plus_sides := v }
  | .completionist => { t with completionist := v }
  | .all_styles => { t with all_styles := v }
  | .single_player => { t with single_player := v }
  | .co_op => { t with co_op := v }
  | .versus => { t with versus := v }

/-- `result[f"{key}_polled"] = v` (unconditional dictionary write). -/
def setPolledVal (t : Times) (k : TimeKey) (v : Option Nat) : Times :=
  match k with
  | .main_story => { t with main_story_polled := v }
  | .main_plus_sides => { t with main_plus_sides_polled := v }
  | .completionist => { t with completionist_polled := v }
  | .all_styles => { t with all_styles_polled := v }
  | .single_player => { t with single_player_polled := v }
  | .co_op => { t with co_op_polled := v }
  | .versus => { t with versus_polled := v }

/-- `if avg_val is not None: result[key] = avg_val`. -/
def writeAvg (t : Times) (k : TimeKey) (v : Option ℚ) : Times :=
  match v with
  | none => t
  | some x => setAvgVal t k (some x)

/-- `if polled_val is not None: result[f"{key}_polled"] = polled_val`. -/
def writePolled (t : Times) (k : TimeKey) (v : Option Nat) : Times :=
  match v with
  | none => t
  | some x => setPolledVal t k (some x)

/-- `all(times.get(k) is None for k in TIME_KEYS)`. -/
def allSevenNone (t : Times) : Bool :=
  t.main_story.isNone && t.main_plus_sides.isNone && t.completionist.isNone &&
  t.all_styles.isNone && t.single_player.isNone && t.co_op.isNone && t.versus.isNone

/-- `None if not avg_text or avg_text.strip().lower() in {"--", "-"} else
parse_hours(avg_text)` of `parse_times_from_tables`. -/
def tableAvgVal (avgText : String) : Option ℚ :=
  if avgText = "" then none
  else
    let s := String.mk (pyLower (pyStrip avgText.data))
    if s = "--" || s = "-" then none else parse_hours avgText

/-- One table of the Table layout: the `thead` section cell's text (absent
when the table has no `thead`/`td`) and the `td` texts of each `spreadsheet`
data row of its `tbody` (a missing `tbody` is an empty row list). -/
structure HTable where
  sectionText : Option String := none
  rows : List (List String) := []
deriving Repr

/-- The body of the row loop of `parse_times_from_tables` (rows with fewer
than three cells are skipped). -/
def processTableRow (sect : Option String) (t : Times) (tds : List String) : Times :=
  match tds with
  | label :: polledText :: avgText :: _ =>
    (match norm_time_label label with
     | none => t
     | some key =>
       let avgVal := tableAvgVal avgText
       let polledVal := to_int polledText
       let t1 :=
         if sect = some "single-player" && key = TimeKey.main_story then
           writePolled (writeAvg t .single_player avgVal) .single_player polledVal
         else t
       writePolled (writeAvg t1 key avgVal) key polledVal)
  | _ => t

/-- `parse_times_from_tables` of src/main.py (an empty table list returns the
all-`None` dictionary, as the early `if not tables` return does). -/
def parse_times_from_tables (tables : List HTable) : Times :=
  tables.foldl
    (fun acc tb =>
      let sect := tb.sectionText.map (fun s => String.mk (pyLower (pyStrip s.data)))
      tb.rows.foldl (processTableRow sect) acc)
    emptyTimes

/-- One `li` of the List layout holding an `h4` label and an `h5` value
(items lacking either tag are skipped by the source and not modelled). -/
structure ListItem where
  label : String
  value : String
deriving Repr

/-- The `extra` dictionary of `parse_times_from_page`: a key is either absent
(`none`) or present with a possibly-`None` parsed value (`some v`). -/
structure ExtraDict where
  single_player : Option (Option ℚ) := none
  co_op : Option (Option ℚ) := none
  versus : Option (Option ℚ) := none
deriving Repr

/-- `parse_times_from_page` of src/main.py over the `li` items of the
`GameStats_game_times__` block (`none` when that block is absent).  Extra
keys go through the `extra` dictionary and overwrite the result at the end;
`main_story` is backfilled from a present, non-`None` `single_player`. -/
def parse_times_from_page (stats : Option (List ListItem)) : Times :=
  match stats with
  | none => emptyTimes
  | some items =>
    let step := fun (p : Times × ExtraDict) (li : ListItem) =>
      match norm_time_label li.label with
      | none => p
      | some key =>
        let val := parse_hours li.value
        match key with
        | .single_player => (p.1, { p.2 with single_player := some val })
        | .co_op => (p.1, { p.2 with co_op := some val })
        | .versus => (p.1, { p.2 with versus := some val })
        | k => (setAvgVal p.1 k val, p.2)
    let (res, extra) := items.foldl step (emptyTimes, {})
    let res :=
      match res.main_story, extra.single_player with
      | none, some (some v) => { res with main_story := some v }
      | _, _ => res
    let res := match extra.single_player with
               | some x => { res with single_player := x }
               | none => res
    let res := match extra.co_op with
               | some x => { res with co_op := x }
               | none => res
    match extra.versus with
    | some x => { res with versus := x }
    | none => res

/-- `[A-Z]{2,3}:` with `re.I`: two or three letters then a colon (the greedy
three-letter alternative first; the two cannot both succeed). -/
def regionCode (cs : List Char) : Option (List Char) :=
  match cs with
  | a :: b :: c :: d :: rest =>
    if isLetterC a && isLetterC b && isLetterC c && d = ':' then some rest
    else if isLetterC a && isLetterC b && c = ':' then some (d :: rest)
    else none
  | [a, b, c] => if isLetterC a && isLetterC b && c = ':' then some [] else none
  | _ => none

/-- `[A-Z]{2,3}:` without `re.I` (uppercase only), for the bare-year pattern. -/
def regionCodeUpper (cs : List Char) : Option (List Char) :=
  match cs with
  | a :: b :: c :: d :: rest =>
    if isUpperC a && isUpperC b && isUpperC c && d = ':' then some rest
    else if isUpperC a && isUpperC b && c = ':' then some (d :: rest)
    else none
  | [a, b, c] => if isUpperC a && isUpperC b && c = ':' then some [] else none
  | _ => none

/-- `(\d{1,2})` followed by material disjoint from digits: greedy two digits,
else one (a third digit makes every continuation fail, so no backtracking). -/
def d12 (cs : List Char) : Option (Nat × List Char) :=
  match cs with
  | a :: b :: rest =>
    if isDigitC a && isDigitC b then some (natValDigits [a, b], rest)
    else if isDigitC a then some (natValDigits [a], b :: rest)
    else none
  | [a] => if isDigitC a then some (natValDigits [a], []) else none
  | [] => none

/-- `(\d{4})`: exactly four digits (whatever follows). -/
def d4 (cs : List Char) : Option (Nat × List Char) :=
  match cs with
  | a :: b :: c :: d :: rest =>
    if isDigitC a && isDigitC b && isDigitC c && isDigitC d then
      some (natValDigits [a, b, c, d], rest)
    else none
  | _ => none

/-- `(?:st|nd|rd|th)?` case-insensitively; taking a present suffix is forced
because the continuation `,?\s+` cannot start with a letter. -/
def ordSkip (cs : List Char) : List Char :=
  match cs with
  | a :: b :: r =>
    let p := [pyLowerC a, pyLowerC b]
    if p = ['s', 't'] || p = ['n', 'd'] || p = ['r', 'd'] || p = ['t', 'h'] then r else cs
  | _ => cs

/-- `,?`; taking a present comma is forced because `\s+` follows. -/
def commaSkip : List Char → List Char
  | ',' :: r => r
  | cs => cs

/-- Anchored attempt of the day pattern
`[A-Z]{2,3}:\s*([A-Za-z]+)\s+(\d{1,2})(?:st|nd|rd|th)?,?\s+(\d{4})` (`re.I`);
yields (month name, day, year). -/
def p1At (cs : List Char) : Option (String × Nat × Nat) :=
  match regionCode cs with
  | none => none
  | some r0 =>
    let r1 := r0.dropWhile isWsC
    let (mon, r2) := r1.span isLetterC
    if mon = [] then none else
    let (ws1, r3) := r2.span isWsC
    if ws1 = [] then none else
    match d12 r3 with
    | none => none
    | some (d, r4) =>
      let r5 := commaSkip (ordSkip r4)
      let (ws2, r6) := r5.span isWsC
      if ws2 = [] then none else
      match d4 r6 with
      | none => none
      | some (y, _) => some (String.mk mon, d, y)

/-- Anchored attempt of the month pattern
`[A-Z]{2,3}:\s*([A-Za-z]+)\s+(\d{4})\b` (`re.I`); yields (month name, year). -/
def p2At (cs : List Char) : Option (String × Nat) :=
  match regionCode cs with
  | none => none
  | some r0 =>
    let r1 := r0.dropWhile isWsC
    let (mon, r2) := r1.span isLetterC
    if mon = [] then none else
    let (ws1, r3) := r2.span isWsC
    if ws1 = [] then none else
    match d4 r3 with
    | none => none
    | some (y, r4) => if boundaryOk r4 then some (String.mk mon, y) else none

/-- Anchored attempt of the year pattern `[A-Z]{2,3}:\s*(\d{4})\b` (no
`re.I`); yields the year. -/
def p3At (cs : List Char) : Option Nat :=
  match regionCodeUpper cs with
  | none => none
  | some r0 =>
    match d4 (r0.dropWhile isWsC) with
    | none => none
    | some (y, r1) => if boundaryOk r1 then some y else none

/-- `re.search`: try the anchored matcher at each position, leftmost first. -/
def reSearch {α : Type} (f : List Char → Option α) : List Char → Option α
  | [] => f []
  | c :: cs =>
    match f (c :: cs) with
    | some r => some r
    | none => reSearch f cs

/-- The `MONTHS` table of src/main.py. -/
def MONTHS (name : String) : Option Nat :=
  if name = "january" then some 1 else if name = "february" then some 2
  else if name = "march" then some 3 else if name = "april" then some 4
  else if name = "may" then some 5 else if name = "june" then some 6
  else if name = "july" then some 7 else if name = "august" then some 8
  else if name = "september" then some 9 else if name = "october" then some 10
  else if name = "november" then some 11 else if name = "december" then some 12
  else none

/-- Python `"%0*d"` low-level zero padding (`{year:04d}`, `{month:02d}`…). -/
def padZ (w : Nat) (n : Nat) : String :=
  let s := toString n
  String.mk (List.replicate (w - s.length) '0') ++ s

/-- First loop of `parse_release_info`: the first text whose first day-pattern
match carries a recognised month name wins; a match with an unknown month
makes the loop move to the next text. -/
def findDay : List String → Option (Nat × Nat × Nat)
  | [] => none
  | t :: ts =>
    match reSearch p1At t.data with
    | some (mon, d, y) =>
      (match MONTHS (String.mk (pyLower mon.data)) with
       | some mo => some (y, mo, d)
       | none => findDay ts)
    | none => findDay ts

/-- Second loop of `parse_release_info` (month precision), same skip rule. -/
def findMonth : List String → Option (Nat × Nat)
  | [] => none
  | t :: ts =>
    match reSearch p2At t.data with
    | some (mon, y) =>
      (match MONTHS (String.mk (pyLower mon.data)) with
       | some mo => some (y, mo)
       | none => findMonth ts)
    | none => findMonth ts

/-- Third loop of `parse_release_info` (year precision). -/
def findYear : List String → Option Nat
  | [] => none
  | t :: ts =>
    match reSearch p3At t.data with
    | some y => some y
    | none => findYear ts

/-- The release-date dictionary of `parse_release_info`. -/
structure ReleaseInfo where
  release_date : Option String
  release_precision : Option String
  release_year : Option String
  release_month : Option String
  release_day : Option String
deriving DecidableEq, Repr

/-- `parse_release_info` of src/main.py over the joined texts of the
`GameSummary_profile_info__` blocks. -/
def parse_release_info (texts : List String) : ReleaseInfo :=
  match findDay texts with
  | some (y, mo, d) =>
    { release_date := some (padZ 4 y ++ "-" ++ padZ 2 mo ++ "-" ++ padZ 2 d)
      release_precision := some "day"
      release_year := some (padZ 4 y)
      release_month := some (padZ 2 mo)
      release_day := some (padZ 2 d) }
  | none =>
    match findMonth texts with
    | some (y, mo) =>
      { release_date := some (padZ 4 y ++ "-" ++ padZ 2 mo)
        release_precision := some "month"
        release_year := some (padZ 4 y)
        release_month := some (padZ 2 mo)
        release_day := none }
    | none =>
      match findYear texts with
      | some y =>
        { release_date := some (padZ 4 y)
          release_precision := some "year"
          release_year := some (padZ 4 y)
          release_month := none
          release_day := none }
      | none =>
        { release_date := none, release_precision := none,
          release_year := none, release_month := none, release_day := none }

/-- `parse_release_date_legacy` of src/main.py: the same day pattern (its
leading region code captured, which changes nothing observable), formatted
as `YYYY-MM-DD`. -/
def parse_release_date_legacy (texts : List String) : Option String :=
  (findDay texts).map (fun r => padZ 4 r.1 ++ "-" ++ padZ 2 r.2.1 ++ "-" ++ padZ 2 r.2.2)

/-- `merge_release_info` of src/main.py.  The `y, m, d = fallback.split("-")`
unpacking raises unless the fallback has exactly three dash-separated parts;
legacy output always has, and the impossible case is modelled as returning
the primary unchanged.  An empty fallback string is falsy and skipped. -/
def merge_release_info (primary : ReleaseInfo) (fallback_date : Option String) : ReleaseInfo :=
  let dateMissing := match primary.release_date with
                     | none => true
                     | some s => s = ""
  match fallback_date with
  | none => primary
  | some fd =>
    if dateMissing && fd ≠ "" then
      match fd.splitOn "-" with
      | [y, m, d] =>
        { release_date := some fd, release_precision := some "day",
          release_year := some y, release_month := some m, release_day := some d }
      | _ => primary
    else primary

/-- Does `needle` occur at the head of the list. -/
def startsList : List Char → List Char → Bool
  | [], _ => true
  | _ :: _, [] => false
  | a :: xs, b :: ys => a = b && startsList xs ys

/-- Python `needle in hay` substring containment. -/
def listHasSub : List Char → List Char → Bool
  | [], needle => needle.isEmpty
  | h :: t, needle => startsList needle (h :: t) || listHasSub t needle

/-- Substring containment on strings. -/
def strContains (hay needle : String) : Bool := listHasSub hay.data needle.data

/-- The parsed-document handle: exactly the query results the extractors
read from the BeautifulSoup tree (the tree parser is an external
collaborator).
* `headerText`: `get_text(strip=True)` of the `GameHeader_profile_header__`
  div, absent when the div is absent;
* `ldjsonNames`: the string `name` fields of the ld+json dictionary items,
  in document order (items whose `name` is not a string are skipped);
* `summaryTexts`: `" ".join(div.stripped_strings)` of each non-empty
  `GameSummary_profile_info__` div;
* `tables`: the `GameTimeTable_game_main_table__` tables;
* `statsItems`: the labelled `li` items of the `GameStats_game_times__`
  block, absent when the block is absent. -/
structure Soup where
  headerText : Option String := none
  ldjsonNames : List String := []
  summaryTexts : List String := []
  tables : List HTable := []
  statsItems : Option (List ListItem) := none

/-- `parse_name_from_page` of src/main.py: the header text when non-empty,
else the first string `name` of the embedded ld+json payloads. -/
def parse_name_from_page (soup : Soup) : Option String :=
  match soup.headerText with
  | some t => if t ≠ "" then some t else soup.ldjsonNames.head?
  | none => soup.ldjsonNames.head?

/-- `detect_content_type` of src/main.py: scan the lowered summary texts for
`note:` and its sub-tokens; the flag set is rendered sorted and joined with
`"; "` (so `dlc/expansion` precedes `multiplayer focused`). -/
def detect_content_type (summaryTexts : List String) : String :=
  let flags := summaryTexts.foldl
    (fun (fl : Bool × Bool) txt =>
      let t := String.mk (pyLower txt.data)
      if strContains t "note:" then
        (fl.1 || strContains t "dlc/expansion", fl.2 || strContains t "multiplayer focused")
      else fl)
    (false, false)
  if flags.1 && flags.2 then "dlc/expansion; multiplayer focused"
  else if flags.1 then "dlc/expansion"
  else if flags.2 then "multiplayer focused"
  else "game"

/-- `extract_id_from_url` of src/main.py, `re.search(r"/game/(\d+)$", url)`:
the url must end in `/game/` followed by the (maximal) trailing digit run;
`none` models the `ValueError` raised on failure. -/
def extract_id_from_url (url : String) : Option Nat :=
  let rev := url.data.reverse
  let ds := rev.takeWhile isDigitC
  if ds.isEmpty then none
  else if startsList "/game/".data.reverse (rev.drop ds.length) then
    some (natValDigits ds.reverse)
  else none

/-- One output record (one CSV row of the store). -/
structure Record where
  id : String
  name : String
  type : String
  release : ReleaseInfo
  times : Times
  source_url : String
  crawled_at : String
deriving DecidableEq, Repr

/-- `parse_hltb_game_from_html` of src/main.py.  `now_iso` models the
`datetime.now` clock read.  `.error` models a propagating exception (the
only in-scope source is `extract_id_from_url`), `.ok none` the validation
return `None` for a missing or empty name, and `ensure_time_keys` is the
identity on the fixed-key `Times` structure. -/
def parse_hltb_game_from_html (url : String) (now_iso : String) (soup : Soup) :
    Except String (Option Record) :=
  match parse_name_from_page soup with
  | none => .ok none
  | some name =>
    if name = "" then .ok none
    else
      let content_type := detect_content_type soup.summaryTexts
      let times0 := parse_times_from_tables soup.tables
      let times := if allSevenNone times0 then parse_times_from_page soup.statsItems else times0
      let ri := merge_release_info (parse_release_info soup.summaryTexts)
                                   (parse_release_date_legacy soup.summaryTexts)
      match extract_id_from_url url with
      | none => .error "ValueError: could not extract the game id from the URL"
      | some gid =>
        .ok (some { id := toString gid, name := name, type := content_type,
                    release := ri, times := times, source_url := url,
                    crawled_at := now_iso })

/-- Outcome of one HTTP attempt inside `Fetcher.fetch_html`. -/
inductive FetchAttempt
  | resp (status : Nat) (body : String)
  | timeout
  | clientError (msg : String)

/-- The retryable status set `{429, 500, 502, 503, 504}`. -/
def retryableStatus (s : Nat) : Bool :=
  s = 429 || s = 500 || s = 502 || s = 503 || s = 504

/-- An attempt outcome that makes `fetch_html` retry per the source: any
retryable status, a timeout, or a transport error (non-404 / non-successful
statuses outside the retryable set also retry, but the claims do not use
that). -/
def retryableAttempt : FetchAttempt → Prop
  | .resp s _ => retryableStatus s = true
  | .timeout => True
  | .clientError _ => True

/-- The retry loop of `Fetcher.fetch_html`: attempt `k` (zero-based) sees
`att k`; a 404 returns `None` at once, a 200 with non-empty body returns the
body, anything else sleeps `backoff + jitter` (jitter is
`random.random() * 0.4`, modelled as `jit k * (2/5)`) and multiplies the
backoff by 1.7.  Returns (result, delays slept so far in reverse, attempts
started). -/
def fetchLoop (att : Nat → FetchAttempt) (jit : Nat → ℚ) :
    Nat → Nat → ℚ → List ℚ → Option String × List ℚ × Nat
  | 0, k, _, delays => (none, delays.reverse, k)
  | n + 1, k, backoff, delays =>
    let retry := fun (_ : Unit) =>
      fetchLoop att jit n (k + 1) (backoff * (17/10)) ((backoff + jit k * (2/5)) :: delays)
    match att k with
    | .resp status body =>
      if status = 404 then (none, delays.reverse, k + 1)
      else if status = 200 && body ≠ "" then (some body, delays.reverse, k + 1)
      else retry ()
    | .timeout => retry ()
    | .clientError _ => retry ()

/-- `Fetcher.fetch_html` with an explicit `max_attempts`; the backoff starts
at 0.6. -/
def fetch_html (att : Nat → FetchAttempt) (jit : Nat → ℚ) (max_attempts : Nat) :
    Option String × List ℚ × Nat :=
  fetchLoop att jit max_attempts 0 (3/5) []

/-- `fetch_html` at its default `max_attempts = 5`. -/
def fetch_html_default (att : Nat → FetchAttempt) (jit : Nat → ℚ) :
    Option String × List ℚ × Nat :=
  fetch_html att jit 5

/-- One queue entry `(i, data, err)` of the producer/consumer pipeline. -/
structure QItem where
  gid : Nat
  data : Option Record
  err : Option String
deriving Repr

/-- The consumer's mutable state: processed counter, consecutive-skip
counter, known-id set, the shared stop event, and the rows written so far. -/
structure ConsState where
  processed : Nat := 0
  consecutiveSkips : Nat := 0
  existing : List String := []
  stopSet : Bool := false
  written : List Record := []
deriving DecidableEq, Repr

/-- One iteration of `consumer` of src/main.py on a queue entry: a truthy
error logs and continues; a missing record increments the skip streak and
sets the stop event at the threshold (when not already set); a record resets
the streak, then is dropped as a duplicate or written and remembered. -/
def consumerStep (missThreshold : Nat) (s : ConsState) (it : QItem) : ConsState :=
  let errTruthy := match it.err with
                   | none => false
                   | some e => e ≠ ""
  if errTruthy then s
  else
    match it.data with
    | none =>
      let skips := s.consecutiveSkips + 1
      let stop := if missThreshold ≤ skips && !s.stopSet then true else s.stopSet
      { s with consecutiveSkips := skips, stopSet := stop }
    | some r =>
      let s1 := { s with consecutiveSkips := 0 }
      if r.id ∈ s1.existing then s1
      else { s1 with written := s1.written ++ [r],
                     existing := r.id :: s1.existing,
                     processed := s1.processed + 1 }

/-- The page URL the producer builds for identifier `i`. -/
def gameUrl (i : Nat) : String := "https://howlongtobeat.com/game/" ++ toString i

/-- One producer iteration for identifier `i`: a fetch miss enqueues
`(i, None, None)`, an assembly exception `(i, None, err)`, and otherwise the
(possibly `None`) assembled record.  `fetchSoup` abstracts
`fetch_html` + HTML parsing: `none` is a fetch miss (404 or exhausted
retries), `some soup` a fetched document. -/
def produceItem (fetchSoup : Nat → Option Soup) (i : Nat) : QItem :=
  match fetchSoup i with
  | none => { gid := i, data := none, err := none }
  | some soup =>
    match parse_hltb_game_from_html (gameUrl i) "" soup with
    | .error e => { gid := i, data := none, err := some e }
    | .ok d => { gid := i, data := d, err := none }

/-- `end_id is not None and i >= end_id` of the producer loop. -/
def endIdReached : Option Nat → Nat → Bool
  | none, _ => false
  | some e, i => e ≤ i

/-- The crawl pipeline in the lockstep schedule (the producer enqueues one
item, the consumer consumes it): the producer stops when the stop event is
set or the end identifier is reached; `fuel` bounds the run for unbounded
mode. -/
def runPipeline (fetchSoup : Nat → Option Soup) (missThreshold : Nat) :
    Nat → Nat → Option Nat → ConsState → ConsState
  | 0, _, _, s => s
  | fuel + 1, i, endId, s =>
    if s.stopSet then s
    else if endIdReached endId i then s
    else runPipeline fetchSoup missThreshold fuel (i + 1) endId
           (consumerStep missThreshold s (produceItem fetchSoup i))

/-- The consumer's initial state. -/
def initConsState : ConsState := {}

/-- Digit run with single underscores between digits, the grammar Python
`int` accepts after the sign (ASCII fragment); returns its value. -/
def digitsUAux : Nat → List Char → Option Nat
  | acc, [] => some acc
  | acc, '_' :: c :: rest =>
    if isDigitC c then digitsUAux (acc * 10 + (c.toNat - '0'.toNat)) rest else none
  | acc, c :: rest =>
    if isDigitC c then digitsUAux (acc * 10 + (c.toNat - '0'.toNat)) rest else none

/-- See `digitsUAux`; the run must start with a digit. -/
def digitsU : List Char → Option Nat
  | c :: rest => if isDigitC c then digitsUAux (c.toNat - '0'.toNat) rest else none
  | [] => none

/-- Python `int(str)`: optional surrounding whitespace, optional sign,
digits; `none` models the raised `ValueError`. -/
def pyInt (s : String) : Option Int :=
  match pyStrip s.data with
  | '+' :: rest => (digitsU rest).map Int.ofNat
  | '-' :: rest => (digitsU rest).map (fun n => -(n : Int))
  | rest => (digitsU rest).map Int.ofNat

/-- `get_resume_start` of src/main.py: `none` models a missing CSV file,
`some rows` the `id` column of the existing rows; rows whose id fails to
parse are skipped by the `try`/`except`. -/
def get_resume_start (store : Option (List String)) : Int :=
  match store with
  | none => 1
  | some rows =>
    rows.foldl (fun acc r => match pyInt r with
                             | some v => max acc v
                             | none => acc) 0 + 1

/-- The start-id resolution of `main_async`: a positive explicit `--start`
wins, otherwise the resume scan. -/
def resolveStartId (argStart : Option Int) (store : Option (List String)) : Int :=
  match argStart with
  | some s => if 0 < s then s else get_resume_start store
  | none => get_resume_start store

/-- One row of the dataset as `filter_dataset` of src/filter.py sees it
after `read_csv`: each of the 14 metric columns (`METRICS_COLS` order) holds
`none` for NaN or a string cell; the non-metric columns are bundled
uninterpreted in `rest`. -/
structure FRow where
  main_story_polled : Option String := none
  main_story : Option String := none
  main_plus_sides_polled : Option String := none
  main_plus_sides : Option String := none
  completionist_polled : Option String := none
  completionist : Option String := none
  all_styles_polled : Option String := none
  all_styles : Option String := none
  single_player_polled : Option String := none
  single_player : Option String := none
  co_op_polled : Option String := none
  co_op : Option String := none
  versus_polled : Option String := none
  versus : Option String := none
  rest : List (Option String) := []
deriving DecidableEq, Repr

/-- A metric cell counts as NA after the string normalisation
`.str.strip().replace("", NA)`: NaN, or a whitespace-only string. -/
def isNACell : Option String → Bool
  | none => true
  | some s => pyStrip s.data |>.isEmpty

/-- `mask_all_empty` of `filter_dataset`: every metric cell is NA. -/
def maskAllEmpty (r : FRow) : Bool :=
  isNACell r.main_story_polled && isNACell r.main_story &&
  isNACell r.main_plus_sides_polled && isNACell r.main_plus_sides &&
  isNACell r.completionist_polled && isNACell r.completionist &&
  isNACell r.all_styles_polled && isNACell r.all_styles &&
  isNACell r.single_player_polled && isNACell r.single_player &&
  isNACell r.co_op_polled && isNACell r.co_op &&
  isNACell r.versus_polled && isNACell r.versus

/-- The row-filtering core of `filter_dataset` of src/filter.py: drop the
rows whose metrics are all NA; returns (kept rows, `before`, `after`).  The
service-column drop only projects columns and is carried by `rest`, outside
the claims. -/
def filter_dataset (rows : List FRow) : List FRow × Nat × Nat :=
  let kept := rows.filter (fun r => !(maskAllEmpty r))
  (kept, rows.length, kept.length)

/-- The release-date precision invariant of the specification data model:
`day` has year, month and day; `month` lacks the day; `year` has only the
year; `none` has no component at all. -/
def precisionInvariant (r : ReleaseInfo) : Prop :=
  if r.release_precision = some "day" then
    r.release_year.isSome ∧ r.release_month.isSome ∧ r.release_day.isSome
  else if r.release_precision = some "month" then
    r.release_year.isSome ∧ r.release_month.isSome ∧ r.release_day = none
  else if r.release_precision = some "year" then
    r.release_year.isSome ∧ r.release_month = none ∧ r.release_day = none
  else if r.release_precision = none then
    r.release_date = none ∧ r.release_year = none ∧ r.release_month = none ∧
    r.release_day = none
  else False

/-- An empty `ReleaseInfo`, the no-match result of the release extractor. -/
def riNone : ReleaseInfo :=
  { release_date := none, release_precision := none,
    release_year := none, release_month := none, release_day := none }

/-- A page with a title and no time data at all (claim C1). -/
def c1soup : Soup := { headerText := some "Foo" }

/-- The record `parse_hltb_game_from_html` assembles from `c1soup`. -/
def c1rec : Record :=
  { id := "7", name := "Foo", type := "game", release := riNone,
    times := emptyTimes, source_url := gameUrl 7, crawled_at := "" }

/-- A record value used to instantiate claim C3's witness. -/
def c3rec : Record :=
  { id := "1", name := "A", type := "game", release := riNone,
    times := emptyTimes, source_url := "", crawled_at := "" }

/-- A page whose Table layout is empty but whose List layout carries a
co-op time (claim C5). -/
def c5soup : Soup :=
  { headerText := some "Foo",
    statsItems := some [{ label := "Co-Op", value := "5 Hours" }] }

/-- A page with a title and no time data (claim C5 witness). -/
def c5wsoup : Soup := { headerText := some "Bar" }

/-- The record `parse_hltb_game_from_html` assembles from `c5wsoup`. -/
def c5wrec : Record :=
  { id := "4", name := "Bar", type := "game", release := riNone,
    times := emptyTimes, source_url := gameUrl 4, crawled_at := "" }

/-- C4 counterexample: the claim asserts `parse_duration("10 - 12 Hours") ==
11`, but `parse_hours` yields no value there: the side `"10"` carries no
unit and fails every sub-pattern, so the range branch falls through and no
other pattern matches the full string. -/
theorem claim_C4_counterexample : ¬ (parse_hours "10 - 12 Hours" = some 11) := by
  decide

/-- C4 (amended): the dash-range branch averages the two sides, rounded to
two decimals, only when each side independently parses under the grammar; a
bare number such as `"10"` has no unit and parses to nothing, so
`"10 - 12 Hours"` yields none, while `"10 Hours - 12 Hours"` yields 11. -/
theorem claim_C4 :
    parse_hours "10 - 12 Hours" = none ∧
    parse_hours "10 Hours - 12 Hours" = some 11 ∧
    parse_hours "10" = none := by
  refine ⟨by decide, by decide, by decide⟩

/-- C2 counterexample: a bounded crawl (end identifier 50) whose consumer
sees three consecutive misses at threshold 3 sets the shared stop signal,
refuting "in a bounded crawl reaching the threshold never sets the stop
signal". -/
theorem claim_C2_counterexample :
    (runPipeline (fun _ => none) 3 20 1 (some 50) initConsState).stopSet = true := by
  decide

/-- C2 (amended): whenever the consecutive-miss counter reaches the
configured threshold on a no-record entry, the consumer leaves the stop
signal set — it sets it if it was clear — regardless of whether the crawl
is bounded: the consumer never consults the end identifier. -/
theorem claim_C2 (mt : Nat) (s : ConsState) (gid : Nat)
    (h : mt ≤ s.consecutiveSkips + 1) :
    (consumerStep mt s { gid := gid, data := none, err := none }).stopSet = true := by
  cases hs : s.stopSet <;> simp [consumerStep, hs, h]

/-- Witness for C2 at a concrete state below the threshold by one. -/
theorem claim_C2_witness :
    400 ≤ (399 : Nat) + 1 ∧
    (consumerStep 400 { consecutiveSkips := 399 }
      { gid := 9, data := none, err := none }).stopSet = true :=
  ⟨by decide, claim_C2 400 { consecutiveSkips := 399 } 9 (by decide)⟩

/-- C3 counterexample: an error entry leaves the consecutive-miss counter
unchanged (here 3), refuting "on error entries it becomes zero". -/
theorem claim_C3_counterexample :
    ¬ ((consumerStep 400 { consecutiveSkips := 3 }
      { gid := 5, data := none, err := some "boom" }).consecutiveSkips = 0) := by
  decide

/-- C3 (amended): the consumer's consecutive-miss counter increments on a
no-record entry, resets to zero on every record entry (duplicates included),
and is left unchanged — not reset — on an error entry. -/
theorem claim_C3 (mt : Nat) (s : ConsState) (gid : Nat) (r : Record)
    (d : Option Record) (e : String) (he : e ≠ "") :
    (consumerStep mt s { gid := gid, data := none, err := none }).consecutiveSkips
        = s.consecutiveSkips + 1 ∧
    (consumerStep mt s { gid := gid, data := some r, err := none }).consecutiveSkips = 0 ∧
    (consumerStep mt s { gid := gid, data := d, err := some e }).consecutiveSkips
        = s.consecutiveSkips := by
  refine ⟨by simp [consumerStep], ?_, by simp [consumerStep, he]⟩
  by_cases hd : r.id ∈ s.existing <;> simp [consumerStep, hd]

/-- Witness for C3 at a concrete state and a non-empty error string. -/
theorem claim_C3_witness :
    "boom" ≠ "" ∧
    ((consumerStep 7 { consecutiveSkips := 2 }
        { gid := 5, data := none, err := none }).consecutiveSkips = 2 + 1 ∧
     (consumerStep 7 { consecutiveSkips := 2 }
        { gid := 5, data := some c3rec, err := none }).consecutiveSkips = 0 ∧
     (consumerStep 7 { consecutiveSkips := 2 }
        { gid := 5, data := none, err := some "boom" }).consecutiveSkips = 2) :=
  ⟨by decide, claim_C3 7 { consecutiveSkips := 2 } 5 c3rec none "boom" (by decide)⟩

/-- Denominators are non-zero in `ℚ`. -/
theorem qden_ne (a : ℚ) : ((a.den : ℚ)) ≠ 0 := by
  exact_mod_cast a.den_nz

/-- `qadd` is ordinary addition. -/
theorem qadd_eq (a b : ℚ) : qadd a b = a + b := by
  rw [qadd, Rat.mkRat_eq_div]
  push_cast
  conv_rhs => rw [← Rat.num_div_den a, ← Rat.num_div_den b]
  rw [div_add_div _ _ (qden_ne a) (qden_ne b)]
  ring_nf

/-- `qdivN` is ordinary division (the embedding only divides by 2, 60, 100). -/
theorem qdivN_eq (a : ℚ) (n : Nat) : qdivN a n = a / n := by
  rw [qdivN, Rat.mkRat_eq_div]
  push_cast
  rw [← div_div, Rat.num_div_den]

/-- `qmulN` is ordinary multiplication. -/
theorem qmulN_eq (a : ℚ) (n : Nat) : qmulN a n = a * n := by
  rw [qmulN, Rat.mkRat_eq_div]
  push_cast
  conv_rhs => rw [← Rat.num_div_den a]
  rw [div_mul_eq_mul_div]

/-- `qofNat` is the natural-number embedding. -/
theorem qofNat_eq (n : Nat) : qofNat n = (n : ℚ) := by
  rw [qofNat, Rat.mkRat_eq_div]
  simp

/-- `qsubInt` is ordinary subtraction. -/
theorem qsubInt_eq (a : ℚ) (z : ℤ) : qsubInt a z = a - z := by
  rw [qsubInt, Rat.mkRat_eq_div]
  push_cast
  rw [sub_div, Rat.num_div_den, mul_div_assoc, div_self (qden_ne a), mul_one]

/-- `qhalf` is `0.5`. -/
theorem qhalf_eq : qhalf = 1/2 := by
  rw [qhalf, Rat.mkRat_eq_div]
  norm_num

/-- C9: inside a table whose header section normalises to `single-player`, a
row whose label normalises to `main story` writes its parsed average and its
parsed poll count into both the `main_story` and the `single_player` keys,
the same value into both. -/
theorem claim_C9 (sec label polledText avgText : String) (v : ℚ) (n : Nat)
    (hsec : String.mk (pyLower (pyStrip sec.data)) = "single-player")
    (hlbl : norm_time_label label = some TimeKey.main_story)
    (havg : tableAvgVal avgText = some v)
    (hpol : to_int polledText = some n) :
    (parse_times_from_tables
        [{ sectionText := some sec, rows := [[label, polledText, avgText]] }]).main_story
        = some v ∧
    (parse_times_from_tables
        [{ sectionText := some sec, rows := [[label, polledText, avgText]] }]).single_player
        = some v ∧
    (parse_times_from_tables
        [{ sectionText := some sec, rows := [[label, polledText, avgText]] }]).main_story_polled
        = some n ∧
    (parse_times_from_tables
        [{ sectionText := some sec, rows := [[label, polledText, avgText]] }]).single_player_polled
        = some n := by
  simp [parse_times_from_tables, processTableRow, hsec, hlbl, havg, hpol,
        writeAvg, writePolled, setAvgVal, setPolledVal, emptyTimes]

/-- Witness for C9: a concrete single-player table row. -/
theorem claim_C9_witness :
    (parse_times_from_tables
        [{ sectionText := some " Single-Player ",
           rows := [[" Main Story ", "1,234", "21 Hours"]] }]).main_story = some 21 ∧
    (parse_times_from_tables
        [{ sectionText := some " Single-Player ",
           rows := [[" Main Story ", "1,234", "21 Hours"]] }]).single_player = some 21 ∧
    (parse_times_from_tables
        [{ sectionText := some " Single-Player ",
           rows := [[" Main Story ", "1,234", "21 Hours"]] }]).main_story_polled = some 1234 ∧
    (parse_times_from_tables
        [{ sectionText := some " Single-Player ",
           rows := [[" Main Story ", "1,234", "21 Hours"]] }]).single_player_polled = some 1234 :=
  claim_C9 " Single-Player " " Main Story " "1,234" "21 Hours" 21 1234
    (by decide) (by decide) (by decide) (by decide)

/-- A retryable attempt makes one loop iteration sleep `backoff + jitter`
and continue with backoff multiplied by 1.7. -/
theorem fetchLoop_retry (att : Nat → FetchAttempt) (jit : Nat → ℚ) (n k : Nat)
    (b : ℚ) (ds : List ℚ) (h : retryableAttempt (att k)) :
    fetchLoop att jit (n + 1) k b ds =
      fetchLoop att jit n (k + 1) (b * (17/10)) ((b + jit k * (2/5)) :: ds) := by
  cases ha : att k with
  | resp s body =>
    rw [ha] at h
    simp only [retryableAttempt, retryableStatus, Bool.or_eq_true, decide_eq_true_eq] at h
    have h404 : s ≠ 404 := by omega
    have h200 : s ≠ 200 := by omega
    simp [fetchLoop, ha, h404, h200]
  | timeout => simp [fetchLoop, ha]
  | clientError m => simp [fetchLoop, ha]

/-- C6: an HTTP 404 returns the terminal no-html outcome on the first
attempt with no retry and no backoff sleep; and when every attempt outcome
is retryable (a status in {429, 500, 502, 503, 504}, a timeout, or a
transport error), the default five attempts are all used, each followed by a
sleep of `0.6 * 1.7 ^ k` plus jitter, and the fetch returns the failed
(no-html) outcome. -/
theorem claim_C6 :
    (∀ (att : Nat → FetchAttempt) (jit : Nat → ℚ) (body : String) (m : Nat),
       att 0 = FetchAttempt.resp 404 body → 1 ≤ m →
       fetch_html att jit m = (none, [], 1)) ∧
    (∀ (att : Nat → FetchAttempt) (jit : Nat → ℚ),
       (∀ k, k < 5 → retryableAttempt (att k)) →
       fetch_html_default att jit =
         (none,
          [3/5 + jit 0 * (2/5),
           3/5 * (17/10) + jit 1 * (2/5),
           3/5 * (17/10) ^ 2 + jit 2 * (2/5),
           3/5 * (17/10) ^ 3 + jit 3 * (2/5),
           3/5 * (17/10) ^ 4 + jit 4 * (2/5)], 5)) := by
  constructor
  · intro att jit body m h404 hm
    match m, hm with
    | m' + 1, _ => simp [fetch_html, fetchLoop, h404]
  · intro att jit h
    show fetchLoop att jit 5 0 (3/5) [] = _
    rw [fetchLoop_retry att jit _ _ _ _ (h 0 (by omega)),
        fetchLoop_retry att jit _ _ _ _ (h 1 (by omega)),
        fetchLoop_retry att jit _ _ _ _ (h 2 (by omega)),
        fetchLoop_retry att jit _ _ _ _ (h 3 (by omega)),
        fetchLoop_retry att jit _ _ _ _ (h 4 (by omega))]
    simp only [fetchLoop, List.reverse_cons, List.reverse_nil, List.nil_append,
               List.cons_append, List.append_nil, Prod.mk.injEq, List.cons.injEq]
    norm_num

/-- Witness for C6: a constant-404 server and a constant-timeout server. -/
theorem claim_C6_witness :
    fetch_html (fun _ => FetchAttempt.resp 404 "x") (fun _ => 0) 5 = (none, [], 1) ∧
    fetch_html_default (fun _ => FetchAttempt.timeout) (fun _ => 0) =
      (none,
       [3/5 + (0 : ℚ) * (2/5),
        3/5 * (17/10) + (0 : ℚ) * (2/5),
        3/5 * (17/10) ^ 2 + (0 : ℚ) * (2/5),
        3/5 * (17/10) ^ 3 + (0 : ℚ) * (2/5),
        3/5 * (17/10) ^ 4 + (0 : ℚ) * (2/5)], 5) :=
  ⟨claim_C6.1 (fun _ => FetchAttempt.resp 404 "x") (fun _ => 0) "x" 5 rfl (by omega),
   claim_C6.2 (fun _ => FetchAttempt.timeout) (fun _ => 0) (fun k _ => trivial)⟩

/-- Every result of the primary release extractor satisfies the precision
invariant. -/
theorem precisionInvariant_parse_release_info (texts : List String) :
    precisionInvariant (parse_release_info texts) := by
  rcases hd : findDay texts with _ | ⟨y, mo, d⟩
  · rcases hm : findMonth texts with _ | ⟨y2, mo2⟩
    · rcases hy : findYear texts with _ | y3
      · simp [parse_release_info, hd, hm, hy, precisionInvariant]
      · simp [parse_release_info, hd, hm, hy, precisionInvariant]
    · simp [parse_release_info, hd, hm, precisionInvariant]
  · simp [parse_release_info, hd, precisionInvariant]

/-- The legacy-fallback merge preserves the precision invariant: it either
returns the primary result unchanged or a full day-precision result. -/
theorem precisionInvariant_merge (p : ReleaseInfo) (fb : Option String)
    (hp : precisionInvariant p) : precisionInvariant (merge_release_info p fb) := by
  unfold merge_release_info
  rcases fb with _ | fd
  · exact hp
  · dsimp only
    split
    · split
      · simp [precisionInvariant]
      · exact hp
    · exact hp

/-- C7: every release-date result the assembler uses — the primary
extractor's output merged with the legacy fallback — satisfies the
precision invariant: `day` has year, month and day present; `month` has no
day; `year` has only the year; `none` has no component at all. -/
theorem claim_C7 (texts : List String) :
    precisionInvariant
      (merge_release_info (parse_release_info texts) (parse_release_date_legacy texts)) :=
  precisionInvariant_merge _ _ (precisionInvariant_parse_release_info texts)

/-- The resume fold over rows equals the fold of the parseable ids. -/
theorem resumeFold_filterMap (rows : List String) (acc : Int) :
    rows.foldl (fun acc r => match pyInt r with
                             | some v => max acc v
                             | none => acc) acc
      = (rows.filterMap pyInt).foldl max acc := by
  induction rows generalizing acc with
  | nil => rfl
  | cons r t ih =>
    rcases h : pyInt r with _ | v
    · simp only [List.foldl_cons, List.filterMap_cons, h]
      exact ih acc
    · simp only [List.foldl_cons, List.filterMap_cons, h]
      exact ih (max acc v)

/-- Folding `max` from a lower bound over a list whose maximum is `N`
yields `N`. -/
theorem foldl_max_eq (l : List Int) (acc N : Int) (hacc : acc ≤ N)
    (hb : ∀ v ∈ l, v ≤ N) (hm : N ∈ l ∨ acc = N) : l.foldl max acc = N := by
  induction l generalizing acc with
  | nil =>
    rcases hm with h | h
    · exact absurd h (List.not_mem_nil N)
    · simpa using h
  | cons v t ih =>
    simp only [List.foldl_cons]
    have hv : v ≤ N := hb v (List.mem_cons_self v t)
    have hacc2 : max acc v ≤ N := max_le hacc hv
    have hb2 : ∀ w ∈ t, w ≤ N := fun w hw => hb w (List.mem_cons_of_mem _ hw)
    rcases hm with h | h
    · rcases List.mem_cons.mp h with h | h
      · exact ih (max acc v) hacc2 hb2 (Or.inr (by omega))
      · exact ih (max acc v) hacc2 hb2 (Or.inl h)
    · exact ih (max acc v) hacc2 hb2 (Or.inr (by omega))

/-- C8: with no explicit start override, a run over a store whose parseable
ids have maximum `N` starts at `N + 1`; with no store present it starts
at 1. -/
theorem claim_C8 :
    (∀ (rows : List String) (N : Int), 0 ≤ N →
       N ∈ rows.filterMap pyInt →
       (∀ v ∈ rows.filterMap pyInt, v ≤ N) →
       resolveStartId none (some rows) = N + 1) ∧
    resolveStartId none none = 1 := by
  constructor
  · intro rows N h0 hmem hb
    show get_resume_start (some rows) = N + 1
    unfold get_resume_start
    dsimp only
    rw [resumeFold_filterMap, foldl_max_eq _ 0 N h0 hb (Or.inl hmem)]
  · rfl

/-- Witness for C8: a store with ids 3, 7, 5 and one unparseable row. -/
theorem claim_C8_witness :
    (0 : Int) ≤ 7 ∧
    (7 : Int) ∈ (["3", "7", "abc", "5"].filterMap pyInt) ∧
    resolveStartId none (some ["3", "7", "abc", "5"]) = 7 + 1 :=
  ⟨by decide, by decide,
   claim_C8.1 ["3", "7", "abc", "5"] 7 (by decide) (by decide) (by decide)⟩

/-- `containsDash` is false exactly when no element is a dash. -/
theorem containsDash_false_iff (l : List Char) :
    containsDash l = false ↔ ∀ c ∈ l, isDashC c = false := by
  simp [containsDash, List.any_eq_false]

/-- Dash-freeness transfers along subsets. -/
theorem noDash_of_subset (l1 l2 : List Char) (hs : ∀ c ∈ l1, c ∈ l2)
    (h : containsDash l2 = false) : containsDash l1 = false := by
  rw [containsDash_false_iff] at h ⊢
  exact fun c hc => h c (hs c hc)

/-- `trimLead` only removes elements. -/
theorem trimLead_subset (l : List Char) : ∀ c ∈ trimLead l, c ∈ l :=
  fun _ hc => (List.dropWhile_sublist _).subset hc

/-- `trimTrail` only removes elements. -/
theorem trimTrail_subset (l : List Char) : ∀ c ∈ trimTrail l, c ∈ l := by
  intro c hc
  unfold trimTrail at hc
  rw [List.mem_reverse] at hc
  have h2 := (List.dropWhile_sublist _).subset hc
  rwa [List.mem_reverse] at h2

/-- `pyStrip` only removes elements. -/
theorem pyStrip_subset (l : List Char) : ∀ c ∈ pyStrip l, c ∈ l := by
  intro c hc
  unfold pyStrip at hc
  rw [List.mem_reverse] at hc
  have h2 := (List.dropWhile_sublist _).subset hc
  rw [List.mem_reverse] at h2
  exact (List.dropWhile_sublist _).subset h2

/-- ASCII lowercasing maps no character onto a dash. -/
theorem isDashC_pyLowerC (c : Char) : isDashC (pyLowerC c) = isDashC c := by
  unfold pyLowerC
  rcases hf : lowerTable.find? (fun p => p.1 = c) with _ | ⟨u, l⟩
  · rw [hf]
    rfl
  · have hmem : (u, l) ∈ lowerTable := List.mem_of_find?_eq_some hf
    have hcnd := List.find?_some hf
    simp only [decide_eq_true_eq] at hcnd
    subst hcnd
    rw [hf]
    have h1 : ∀ p ∈ lowerTable, isDashC p.2 = false ∧ isDashC p.1 = false := by decide
    rcases h1 (u, l) hmem with ⟨h2, h3⟩
    simp only at h2 h3
    simp [h2, h3]

/-- The NBSP replacement maps no character onto a dash. -/
theorem isDashC_replNbspC (c : Char) :
    isDashC (if c = '\xa0' then ' ' else c) = isDashC c := by
  by_cases h : c = '\xa0'
  · subst h; decide
  · rw [if_neg h]

/-- The `parse_hours` normalisation prefix creates no dash. -/
theorem processRaw_noDash (cs : List Char) (h : containsDash cs = false) :
    containsDash (processRaw cs) = false := by
  unfold processRaw pyLower
  rw [containsDash, List.any_map]
  have : ∀ c ∈ pyStrip (replaceNbsp cs), (isDashC ∘ pyLowerC) c = false := by
    intro c hc
    have hc2 := pyStrip_subset _ c hc
    unfold replaceNbsp at hc2
    rcases List.mem_map.mp hc2 with ⟨a, ha, rfl⟩
    have hda : isDashC a = false := (containsDash_false_iff cs).mp h a ha
    simp only [Function.comp_apply, isDashC_pyLowerC, isDashC_replNbspC]
    exact hda
  exact List.any_eq_false.mpr (by intro c hc; rw [this c hc]; exact Bool.false_ne_true)

/-- `splitAtDash` never returns an empty part list. -/
theorem splitAtDash_ne_nil (cs : List Char) : splitAtDash cs ≠ [] := by
  induction cs with
  | nil => simp [splitAtDash]
  | cons c rest ih =>
    unfold splitAtDash
    split
    · simp
    · rcases h : splitAtDash rest with _ | ⟨p, ps⟩
      · simp
      · simp

/-- Every part produced by the per-dash cut is dash-free: each dash of the
input is consumed as a separator. -/
theorem splitAtDash_noDash (cs : List Char) :
    ∀ p ∈ splitAtDash cs, containsDash p = false := by
  induction cs with
  | nil =>
    intro p hp
    simp only [splitAtDash, List.mem_singleton] at hp
    subst hp
    rfl
  | cons c rest ih =>
    intro p hp
    unfold splitAtDash at hp
    by_cases hc : isDashC c = true
    · rw [if_pos hc] at hp
      rcases List.mem_cons.mp hp with h | h
      · subst h; rfl
      · exact ih p h
    · rw [if_neg hc] at hp
      rw [Bool.not_eq_true] at hc
      rcases hsp : splitAtDash rest with _ | ⟨q, qs⟩
      · exact absurd hsp (splitAtDash_ne_nil rest)
      · rw [hsp] at hp
        rcases List.mem_cons.mp hp with h | h
        · subst h
          have hq : containsDash q = false :=
            ih q (by rw [hsp]; exact List.mem_cons_self q qs)
          rw [containsDash_false_iff] at hq ⊢
          intro x hx
          rcases List.mem_cons.mp hx with hx | hx
          · subst hx; exact hc
          · exact hq x hx
        · exact ih p (by rw [hsp]; exact List.mem_cons_of_mem _ h)

/-- The middle/last whitespace adjustment keeps parts dash-free. -/
theorem adjustMids_noDash (ps : List (List Char))
    (h : ∀ p ∈ ps, containsDash p = false) :
    ∀ p ∈ adjustMids ps, containsDash p = false := by
  induction ps with
  | nil => intro p hp; simp [adjustMids] at hp
  | cons q qs ih =>
    intro p hp
    rcases qs with _ | ⟨q2, qs2⟩
    · simp only [adjustMids, List.mem_singleton] at hp
      subst hp
      exact noDash_of_subset _ _ (trimLead_subset q) (h q (by simp))
    · simp only [adjustMids, List.mem_cons] at hp
      rcases hp with hp | hp
      · subst hp
        refine noDash_of_subset _ _ ?_ (h q (by simp))
        intro c hc
        exact trimTrail_subset q c (trimLead_subset _ c hc)
      · exact ih (fun r hr => h r (List.mem_cons_of_mem _ hr)) p hp

/-- Every part of the dash-range split is dash-free, so a recursive call of
`parse_hours` can never itself reach the range branch. -/
theorem splitDashes_noDash (cs : List Char) :
    ∀ p ∈ splitDashes cs, containsDash p = false := by
  have hparts := splitAtDash_noDash cs
  unfold splitDashes
  rcases h : splitAtDash cs with _ | ⟨q, qs⟩
  · intro p hp
    simp at hp
  · have hq : containsDash q = false :=
      hparts q (by rw [h]; exact List.mem_cons_self _ _)
    have hqs : ∀ r ∈ qs, containsDash r = false :=
      fun r hr => hparts r (by rw [h]; exact List.mem_cons_of_mem _ hr)
    rcases qs with _ | ⟨q2, qs2⟩
    · intro p hp
      simp only [List.mem_singleton] at hp
      subst hp
      exact hq
    · intro p hp
      rcases List.mem_cons.mp hp with hh | hh
      · subst hh
        exact noDash_of_subset _ _ (trimTrail_subset q) hq
      · exact adjustMids_noDash (q2 :: qs2) hqs p hh

/-- The range branch only applies the recursive call to the parts of the
dash split. -/
theorem rangeValue_congr (f g : List Char → Option ℚ) (raw : List Char)
    (h : ∀ p ∈ splitDashes raw, f p = g p) :
    rangeValue f raw = rangeValue g raw := by
  unfold rangeValue
  split
  · rcases hs : splitDashes raw with _ | ⟨p1, _ | ⟨p2, _ | _⟩⟩
    · rfl
    · rfl
    · dsimp only
      rw [h p1 (by rw [hs]; exact List.mem_cons_self _ _),
          h p2 (by rw [hs]; exact List.mem_cons_of_mem _ (List.mem_cons_self _ _))]
    · rfl
  · rfl

/-- Without a dash the range branch yields nothing and never recurses. -/
theorem rangeValue_noDash (f g : List Char → Option ℚ) (raw : List Char)
    (h : containsDash raw = false) : rangeValue f raw = rangeValue g raw := by
  unfold rangeValue
  simp [h]

/-- The body of `parse_hours` only applies the recursive call to the parts
of the dash split. -/
theorem parseHoursBody_congr (f g : List Char → Option ℚ) (cs : List Char)
    (h : ∀ p ∈ splitDashes (processRaw cs), f p = g p) :
    parseHoursBody f cs = parseHoursBody g cs := by
  unfold parseHoursBody
  rw [rangeValue_congr f g (processRaw cs) h]

/-- Without a dash in the normalised text the body never recurses, so the
recursive argument is irrelevant. -/
theorem parseHoursBody_noRange (f g : List Char → Option ℚ) (cs : List Char)
    (h : containsDash (processRaw cs) = false) :
    parseHoursBody f cs = parseHoursBody g cs := by
  unfold parseHoursBody
  rw [rangeValue_noDash f g (processRaw cs) h]

/-- Fuel 2 computes `parse_hours` exactly: the recursion depth is at most
one because the range branch's parts are dash-free. -/
theorem parseHoursAux_stable (n : Nat) (cs : List Char) :
    parseHoursAux (n + 2) cs = parseHoursAux 2 cs := by
  show parseHoursBody (parseHoursAux (n + 1)) cs = parseHoursBody (parseHoursAux 1) cs
  apply parseHoursBody_congr
  intro p hp
  have hnd : containsDash p = false := splitDashes_noDash _ p hp
  have hnd2 : containsDash (processRaw p) = false := processRaw_noDash p hnd
  show parseHoursBody (parseHoursAux n) p = parseHoursBody (parseHoursAux 0) p
  exact parseHoursBody_noRange _ _ p hnd2

/-- C10: `parse_hours` terminates on every input with recursion depth at
most one — any fuel of at least two computes the same value, and
`parse_hours` (which runs at fuel `length + 2`) equals the fuel-2 run. -/
theorem claim_C10 (s : String) (n : Nat) :
    parseHoursAux (n + 2) s.data = parseHoursAux 2 s.data ∧
    parse_hours s = parseHoursAux 2 s.data :=
  ⟨parseHoursAux_stable n s.data, parseHoursAux_stable s.data.length s.data⟩

/-- C5 counterexample: with an empty Table layout and a List layout carrying
a co-op time, the assembled record's `co_op` key holds the List layout's
value (5), not "whatever the Table layout last wrote" (none) — on fallback
the whole seven-key result, extras included, comes from the List reader. -/
theorem claim_C5_counterexample :
    (parse_hltb_game_from_html (gameUrl 3) "" c5soup).map
        (Option.map (fun r => r.times.co_op)) = Except.ok (some (some 5)) ∧
    (parse_times_from_tables c5soup.tables).co_op = none ∧
    allSevenNone (parse_times_from_tables c5soup.tables) = true :=
  ⟨rfl, rfl, rfl⟩

/-- C5 (amended): the assembler prefers the Table-layout reader and falls
back to the List-layout reader exactly when all seven Table-layout averages
are none; on fallback the record's whole time dictionary (extra keys
included) is the List reader's output, and otherwise it is the Table
reader's output. -/
theorem claim_C5 (url now_iso : String) (soup : Soup) (r : Record)
    (h : parse_hltb_game_from_html url now_iso soup = .ok (some r)) :
    (allSevenNone (parse_times_from_tables soup.tables) = true →
       r.times = parse_times_from_page soup.statsItems) ∧
    (allSevenNone (parse_times_from_tables soup.tables) = false →
       r.times = parse_times_from_tables soup.tables) := by
  unfold parse_hltb_game_from_html at h
  rcases hn : parse_name_from_page soup with _ | name <;> rw [hn] at h <;> dsimp only at h
  · exact absurd h (by simp)
  · by_cases hname : name = ""
    · rw [if_pos hname] at h
      exact absurd h (by simp)
    · rw [if_neg hname] at h
      rcases hid : extract_id_from_url url with _ | gid <;> rw [hid] at h <;> dsimp only at h
      · exact absurd h (by simp)
      · simp only [Except.ok.injEq, Option.some.injEq] at h
        subst h
        constructor
        · intro hA
          simp [hA]
        · intro hA
          simp [hA]

/-- Witness for C5 at a concrete no-Table page. -/
theorem claim_C5_witness :
    (allSevenNone (parse_times_from_tables c5wsoup.tables) = true →
      c5wrec.times = parse_times_from_page c5wsoup.statsItems) ∧
    (allSevenNone (parse_times_from_tables c5wsoup.tables) = false →
      c5wrec.times = parse_times_from_tables c5wsoup.tables) :=
  claim_C5 (gameUrl 4) "" c5wsoup c5wrec rfl

/-- C1 counterexample: a page with a title and no time data assembles into
a record whose seven averages are all absent, and the consumer persists it
— the record is written (and only later dropped by the downstream filter),
not "discarded and never emitted". -/
theorem claim_C1_counterexample :
    parse_hltb_game_from_html (gameUrl 7) "" c1soup = .ok (some c1rec) ∧
    allSevenNone c1rec.times = true ∧
    (consumerStep 400 initConsState { gid := 7, data := some c1rec, err := none }).written
      = [c1rec] :=
  ⟨rfl, rfl, rfl⟩

/-- C1 (amended): a record is assembled only with a non-empty name; a new
record is persisted by the consumer even when its seven time averages are
all absent; rows whose fourteen metric cells are all empty are removed later
by the downstream filter, which keeps exactly the rows with some metric. -/
theorem claim_C1 :
    (∀ (url now_iso : String) (soup : Soup) (r : Record),
       parse_hltb_game_from_html url now_iso soup = .ok (some r) → r.name ≠ "") ∧
    (∀ (mt : Nat) (s : ConsState) (gid : Nat) (r : Record),
       r.id ∉ s.existing → allSevenNone r.times = true →
       (consumerStep mt s { gid := gid, data := some r, err := none }).written
         = s.written ++ [r]) ∧
    (∀ (rows : List FRow) (fr : FRow),
       fr ∈ (filter_dataset rows).1 ↔ fr ∈ rows ∧ maskAllEmpty fr = false) := by
  refine ⟨?_, ?_, ?_⟩
  · intro url now_iso soup r h
    unfold parse_hltb_game_from_html at h
    rcases hn : parse_name_from_page soup with _ | name <;> rw [hn] at h <;> dsimp only at h
    · exact absurd h (by simp)
    · by_cases hname : name = ""
      · rw [if_pos hname] at h
        exact absurd h (by simp)
      · rw [if_neg hname] at h
        rcases hid : extract_id_from_url url with _ | gid <;> rw [hid] at h <;> dsimp only at h
        · exact absurd h (by simp)
        · simp only [Except.ok.injEq, Option.some.injEq] at h
          subst h
          exact hname
  · intro mt s gid r hdup hall
    simp [consumerStep, hdup]
  · intro rows fr
    simp [filter_dataset, List.mem_filter, Bool.not_eq_true']

/-- Witness for C1 at the concrete all-absent record and a one-row table. -/
theorem claim_C1_witness :
    c1rec.name ≠ "" ∧
    (consumerStep 400 initConsState { gid := 7, data := some c1rec, err := none }).written
      = initConsState.written ++ [c1rec] ∧
    (({ main_story := some "10" } : FRow) ∈
        (filter_dataset [({ main_story := some "10" } : FRow)]).1 ↔
      ({ main_story := some "10" } : FRow) ∈ [({ main_story := some "10" } : FRow)] ∧
      maskAllEmpty ({ main_story := some "10" } : FRow) = false) :=
  ⟨claim_C1.1 (gameUrl 7) "" c1soup c1rec rfl,
   claim_C1.2.1 400 initConsState 7 c1rec (by decide) rfl,
   claim_C1.2.2 [({ main_story := some "10" } : FRow)] ({ main_story := some "10" } : FRow)⟩
